import Mathlib

/-!
Verification of the Matrix-Flag targeting / A-B-testing core.

This file shallowly embeds the code of `app/services/targeting.py` and
`app/services/ab_testing.py` (together with the data model of
`app/models/targeting.py` and `app/models/ab_testing.py`) in Lean and
proves properties of the embedding.

Modelling conventions:
* Python numbers (`int`, `float`, `bool` — note `bool` is a subclass of
  `int` in Python, so `isinstance(True, (int, float))` holds) are
  modelled over `ℚ`; the claims under study are about type dispatch and
  exact arithmetic identities, not float rounding.
* Python values appearing in targeting conditions and contexts are the
  tagged union `PyVal`.
* Operations that can raise (`>`, `<`, chained `<=`, `in` on strings,
  division by zero) return `Except PyErr _`, mirroring which Python
  expressions raise `TypeError` / `ValueError` / `ZeroDivisionError`.
* A Python `dict` is an insertion-ordered association list with
  pairwise-distinct keys; `k in d` is `lookupCtx`.
* `datetime` instants are modelled as integers (`Int`).
* `hashlib.md5` (as used: `int(md5(s.encode()).hexdigest(), 16)`) is a
  pure function of its input string; it is modelled as an arbitrary
  function `md5 : String → Nat` universally quantified in the theorems.
* The global `random` module state is a `Nat`; `random.seed(h)` replaces
  it by `seedFn h` and the subsequent `random.random()` draw used by
  `random.choices` reads `randFn` of that state.  Both `seedFn` and
  `randFn` are arbitrary functions quantified in the theorems.
-/

/-- Python exception kinds raised by the embedded code paths. -/
inductive PyErr where
  | typeError : PyErr
  | valueError : PyErr
  | zeroDivisionError : PyErr
deriving DecidableEq, Repr

/-- Tagged union of the Python values that flow through targeting
conditions and request contexts. -/
inductive PyVal where
  | str : String → PyVal
  | int : Int → PyVal
  | float : ℚ → PyVal
  | bool : Bool → PyVal
  | list : List PyVal → PyVal
  | none : PyVal
deriving Repr

/-- Numeric view: Python treats `bool` as an `int` (`True == 1`), and
`int` and `float` compare by value. -/
def pyToQ : PyVal → Option ℚ
  | .int n => some (n : ℚ)
  | .float q => some q
  | .bool b => some (if b then 1 else 0)
  | _ => Option.none

/-- Python `isinstance(v, (int, float))` — true for ints, floats and bools. -/
def isNumeric : PyVal → Bool
  | .int _ => true
  | .float _ => true
  | .bool _ => true
  | _ => false

/-- Python `isinstance(v, (list, str))`. -/
def isListOrStr : PyVal → Bool
  | .list _ => true
  | .str _ => true
  | _ => false

/-- Python `isinstance(v, list)`. -/
def isList : PyVal → Bool
  | .list _ => true
  | _ => false

mutual
/-- Python `==` on the modelled values: never raises; numeric kinds
compare by value, other kinds only to themselves, lists elementwise. -/
def pyEq : PyVal → PyVal → Bool
  | .str a, .str b => a = b
  | .none, .none => true
  | .list xs, .list ys => pyEqList xs ys
  | a, b =>
    match pyToQ a, pyToQ b with
    | some x, some y => x = y
    | _, _ => false

/-- Python `==` on lists: equal length and elementwise `==`. -/
def pyEqList : List PyVal → List PyVal → Bool
  | [], [] => true
  | x :: xs, y :: ys => pyEq x y && pyEqList xs ys
  | _, _ => false
end

/-- Lexicographic `<` on code-point lists (Python string ordering). -/
def charListLt : List Char → List Char → Bool
  | [], [] => false
  | [], _ :: _ => true
  | _ :: _, [] => false
  | c :: cs, d :: ds =>
    if c.toNat < d.toNat then true
    else if d.toNat < c.toNat then false
    else charListLt cs ds

/-- Python `a <= b`: defined for number/number and string/string pairs,
`TypeError` otherwise.  (List/list comparison is never reached by the
evaluator: the `<`, `>` and chained `<=` sites are all guarded by
`isinstance(value, (int, float))` on one operand.) -/
def pyLe (a b : PyVal) : Except PyErr Bool :=
  match pyToQ a, pyToQ b with
  | some x, some y => .ok (x ≤ y)
  | _, _ =>
    match a, b with
    | .str s, .str t => .ok (!charListLt t.toList s.toList)
    | _, _ => .error .typeError

/-- Python `a < b`, same domain as `pyLe`. -/
def pyLt (a b : PyVal) : Except PyErr Bool :=
  match pyToQ a, pyToQ b with
  | some x, some y => .ok (x < y)
  | _, _ =>
    match a, b with
    | .str s, .str t => .ok (charListLt s.toList t.toList)
    | _, _ => .error .typeError

/-- Substring test on code-point lists (Python `t in s` for strings). -/
def strContainsSub (s t : String) : Bool :=
  s.toList.tails.any (fun suffix => t.toList.isPrefixOf suffix)

/-- Python membership `x in c` for the containers the evaluator reaches:
a string container requires a string member (else `TypeError`), a list
container tests elementwise `==` and never raises. -/
def pyContains (c x : PyVal) : Except PyErr Bool :=
  match c with
  | .str s =>
    match x with
    | .str t => .ok (strContainsSub s t)
    | _ => .error .typeError
  | .list xs => .ok (xs.any (fun e => pyEq e x))
  | _ => .error .typeError

/-- Python chained `lo <= v <= hi`: evaluates `lo <= v` first and
short-circuits to `False` (evaluating nothing further) when it is false. -/
def pyChainedLe (lo v hi : PyVal) : Except PyErr Bool := do
  let b ← pyLe lo v
  if b then pyLe v hi else pure false

/-- The `TargetingOperator` enum of `app/models/targeting.py`. -/
inductive TargetingOperator where
  | equals | not_equals | contains | not_contains
  | greater_than | less_than | inOp | not_in
  | between | not_between
deriving DecidableEq, Repr

/-- The `TargetingCondition` model of `app/models/targeting.py` (the unused
`description` field is omitted; field `attr` renders Python's
`attribute`, a reserved word in Lean). -/
structure TargetingCondition where
  attr : String
  operator : TargetingOperator
  value : PyVal

/-- A request context: a Python dict as an insertion-ordered association
list. -/
def Context := List (String × PyVal)

/-- Python dict lookup (`context[k]` / `k in context`). -/
def lookupCtx (ctx : Context) (k : String) : Option PyVal :=
  (List.find? (fun p => p.1 == k) ctx).map (fun p => p.2)

/-- Embedding of `TargetingService._evaluate_condition` (`app/services/targeting.py`
lines 24–89), with Python's possible `TypeError`s made explicit in the
`Except` result. -/
def evaluateCondition (condition : TargetingCondition) (context : Context) :
    Except PyErr Bool :=
  match lookupCtx context condition.attr with
  | Option.none => .ok false
  | some value =>
    let target_value := condition.value
    match condition.operator with
    | .equals => .ok (pyEq value target_value)
    | .not_equals => .ok (!pyEq value target_value)
    | .contains =>
      if isListOrStr value then pyContains value target_value else .ok false
    | .not_contains =>
      if isListOrStr value then (pyContains value target_value).map (!·)
      else .ok true
    | .greater_than =>
      if isNumeric value then pyLt target_value value else .ok false
    | .less_than =>
      if isNumeric value then pyLt value target_value else .ok false
    | .inOp =>
      if isList target_value then pyContains target_value value else .ok false
    | .not_in =>
      if isList target_value then (pyContains target_value value).map (!·)
      else .ok false
    | .between =>
      match target_value with
      | .list [lo, hi] =>
        if isNumeric value then pyChainedLe lo value hi else .ok false
      | _ => .ok false
    | .not_between =>
      match target_value with
      | .list [lo, hi] =>
        if isNumeric value then (pyChainedLe lo value hi).map (!·) else .ok true
      | _ => .ok false

mutual
/-- The `json.dumps` rendering of a value (string escaping elided — only
determinism and key-sorting of the serialization are load-bearing). -/
def pyValToJson : PyVal → String
  | .str s => "\"" ++ s ++ "\""
  | .int n => toString n
  | .float q => toString q
  | .bool b => if b then "true" else "false"
  | .none => "null"
  | .list xs => "[" ++ pyValListToJson xs ++ "]"

/-- The `json.dumps` rendering of a list body. -/
def pyValListToJson : List PyVal → String
  | [] => ""
  | [x] => pyValToJson x
  | x :: xs => pyValToJson x ++ ", " ++ pyValListToJson xs
end

/-- Comparison `a <= b` on strings by code points, as Python `sorted` uses. -/
def keyLe (a b : String) : Bool := !charListLt b.toList a.toList

/-- Key-sorting of a dict's items, as performed by
`json.dumps(context, sort_keys=True)`. -/
def sortKeys (ctx : Context) : Context :=
  List.mergeSort ctx (fun p q => keyLe p.1 q.1)

/-- Model of `json.dumps(context, sort_keys=True)`: serialize the items in
ascending key order. -/
def jsonDumpsSortedCtx (ctx : Context) : String :=
  let body := String.intercalate ", "
    ((sortKeys ctx).map (fun p => "\"" ++ p.1 ++ "\": " ++ pyValToJson p.2))
  "\x7b" ++ body ++ "\x7d"

/-- The `TargetingRule` model of `app/models/targeting.py` (description and
timestamps omitted; note the service never reads `enabled`). -/
structure TargetingRule where
  name : String
  conditions : List TargetingCondition
  percentage : Option ℚ
  start_time : Option Int
  end_time : Option Int
  enabled : Bool

/-- The `TargetingEvaluation` model of `app/models/targeting.py`. -/
structure TargetingEvaluation where
  rule_id : String
  result : Bool
  matched_conditions : List String
  unmatched_conditions : List String
  evaluation_time : Int
deriving DecidableEq, Repr

/-- The percentage gate of `TargetingService._evaluate_rule`
(`app/services/targeting.py` lines 122–128): md5 of the key-sorted JSON
serialization of the context, reduced modulo 100, compared with the
threshold. -/
def percentGate (md5 : String → Nat) (p : ℚ) (ctx : Context) : Bool :=
  let hash_int := md5 (jsonDumpsSortedCtx ctx)
  decide (((hash_int % 100 : ℕ) : ℚ) < p)

/-- Embedding of `TargetingService._evaluate_rule` (`app/services/targeting.py`
lines 91–144).  The condition loop runs first (so a raising condition
raises even when a later gate would fail), then the time gates, then the
percentage gate. -/
def evaluateRule (md5 : String → Nat) (now : Int) (rule : TargetingRule)
    (context : Context) : Except PyErr TargetingEvaluation := do
  let flags ← rule.conditions.mapM (fun c => do
    let b ← evaluateCondition c context
    pure (c.attr, b))
  let matched_conditions := (flags.filter (fun p => p.2)).map (fun p => p.1)
  let unmatched_conditions := (flags.filter (fun p => !p.2)).map (fun p => p.1)
  let allAttrs := rule.conditions.map (fun c => c.attr)
  if (match rule.start_time with
      | some st => decide (now < st) | Option.none => false) then
    pure ⟨rule.name, false, [], allAttrs, now⟩
  else if (match rule.end_time with
      | some et => decide (now > et) | Option.none => false) then
    pure ⟨rule.name, false, [], allAttrs, now⟩
  else
    match rule.percentage with
    | some p =>
      if !percentGate md5 p context then
        pure ⟨rule.name, false, [], allAttrs, now⟩
      else
        pure ⟨rule.name, matched_conditions.length = rule.conditions.length,
          matched_conditions, unmatched_conditions, now⟩
    | Option.none =>
      pure ⟨rule.name, matched_conditions.length = rule.conditions.length,
        matched_conditions, unmatched_conditions, now⟩

/-- Embedding of `TargetingService.evaluate_rules`: evaluate each rule independently,
preserving order (an exception from any rule propagates). -/
def evaluateRules (md5 : String → Nat) (now : Int)
    (rules : List TargetingRule) (context : Context) :
    Except PyErr (List TargetingEvaluation) :=
  rules.mapM (fun r => evaluateRule md5 now r context)

/-- The `ExperimentStatus` enum of `app/models/ab_testing.py`. -/
inductive ExperimentStatus where
  | draft | running | paused | completed | archived
deriving DecidableEq, Repr

/-- The `VariantType` enum of `app/models/ab_testing.py`. -/
inductive VariantType where
  | control | treatment
deriving DecidableEq, Repr

/-- The `Variant` model of `app/models/ab_testing.py` (fields the services read,
plus `type`). -/
structure Variant where
  name : String
  type : VariantType
  weight : ℚ

/-- The `Experiment` model of `app/models/ab_testing.py` (fields the services
read). -/
structure Experiment where
  name : String
  status : ExperimentStatus
  variants : List Variant
  targeting_rules : List String
  metrics : List String
  start_time : Option Int
  end_time : Option Int
  sample_size : Option Nat
  created_at : Int

/-- Python `sum(variant.weight for variant in experiment.variants)`. -/
def totalWeight (experiment : Experiment) : ℚ :=
  (experiment.variants.map (fun v => v.weight)).sum

/-- Model of `bisect.bisect_right(cum_weights, x, 0, hi)` with `hi = len - 1`, as
`random.choices` performs it: walk the cumulative weights and return the
first name whose cumulative weight exceeds `x`, clamping to the last
element.  Only called on non-empty lists (the `[]` row is unreachable). -/
def bisectPick (x : ℚ) (acc : ℚ) : List (String × ℚ) → String
  | [] => ""
  | [(n, _)] => n
  | (n, w) :: rest => if x < acc + w then n else bisectPick x (acc + w) rest

/-- Embedding of `ABTestingService._calculate_variant_assignment`
(`app/services/ab_testing.py` lines 27–50).  `g` is the global `random`
module state at entry; `random.seed(hash_value)` replaces it by
`seedFn hash_value`, and the draw consumed by `random.choices` is
`randFn` of that seeded state — so `g` is dead on every path, which is
exactly the determinism property under study.  An empty variant list
raises `ValueError` (line 32); an all-zero total weight makes
`variant.weight / total_weight` raise `ZeroDivisionError` (line 42). -/
def calculateVariantAssignment (md5 : String → Nat) (seedFn : Nat → Nat)
    (randFn : Nat → ℚ) (g : Nat) (experiment : Experiment)
    (user_id : String) : Except PyErr String :=
  if experiment.variants.isEmpty then .error .valueError
  else
    let hash_value := md5 (experiment.name ++ ":" ++ user_id)
    let total_weight := totalWeight experiment
    if total_weight = 0 then .error .zeroDivisionError
    else
      let weights := experiment.variants.map
        (fun v => (v.name, v.weight / total_weight))
      .ok (bisectPick (randFn (seedFn hash_value)) 0 weights)

/-- The slice of the Redis store the two services touch:
`experiment:{name}` hashes, `rule:{name}` hashes, the
`experiment_assignment:{exp}:{uid}` string keys, the
`experiment_assignments:{exp}` hash (user → serialized assignment,
modelled by its `variant_name` payload), and the
`experiment_metrics:{exp}:{variant}:{metric}` lists (head = most
recently pushed, per `lpush`). -/
structure RedisState where
  experiments : String → Option Experiment
  rules : String → Option TargetingRule
  assignments : String → String → Option String
  records : String → List (String × String)
  metrics : String → String → String → List ℚ

/-- Redis `hset` on a hash modelled as an association list: overwrite the
field if present, append it otherwise. -/
def hsetField (l : List (String × String)) (k v : String) :
    List (String × String) :=
  if l.any (fun p => p.1 == k) then
    l.map (fun p => if p.1 == k then (k, v) else p)
  else l ++ [(k, v)]

/-- The two writes of `assign_variant` lines 144–149: the sticky string
key and the per-experiment assignments hash. -/
def storeAssignment (s : RedisState) (experiment_name user_id variant_name :
    String) : RedisState :=
  { s with
    assignments := fun e u =>
      if e = experiment_name ∧ u = user_id then some variant_name
      else s.assignments e u,
    records := fun e =>
      if e = experiment_name then
        hsetField (s.records e) user_id variant_name
      else s.records e }

/-- The tail of `assign_variant` past the stickiness check
(lines 124–151): targeting gate (resolve rule names, evaluate, OR over
the evaluations), bucketing, persistence. -/
def assignFresh (md5 : String → Nat) (seedFn : Nat → Nat)
    (randFn : Nat → ℚ) (g : Nat) (now : Int) (s : RedisState)
    (experiment_name user_id : String) (context : Context)
    (experiment : Experiment) : Except PyErr (Option String × RedisState) := do
  let proceed ←
    if experiment.targeting_rules.isEmpty then pure true
    else do
      let rules := experiment.targeting_rules.filterMap s.rules
      let evaluations ← evaluateRules md5 now rules context
      pure (evaluations.any (fun ev => ev.result))
  if proceed then do
    let variant_name ←
      calculateVariantAssignment md5 seedFn randFn g experiment user_id
    pure (some variant_name,
      storeAssignment s experiment_name user_id variant_name)
  else
    pure (Option.none, s)

/-- Embedding of `ABTestingService.assign_variant` (`app/services/ab_testing.py`
lines 109–151): experiment lookup and status gate, stickiness check
(`if existing_assignment:` — Python truthiness, so an empty stored
string falls through like an absent key), then `assignFresh`.  Returns
the response together with the post state. -/
def assignVariant (md5 : String → Nat) (seedFn : Nat → Nat)
    (randFn : Nat → ℚ) (g : Nat) (now : Int) (s : RedisState)
    (experiment_name user_id : String) (context : Context) :
    Except PyErr (Option String × RedisState) :=
  match s.experiments experiment_name with
  | Option.none => .ok (Option.none, s)
  | some experiment =>
    if experiment.status ≠ ExperimentStatus.running then .ok (Option.none, s)
    else
      match s.assignments experiment_name user_id with
      | some existing_assignment =>
        if existing_assignment = "" then
          assignFresh md5 seedFn randFn g now s experiment_name user_id
            context experiment
        else .ok (some existing_assignment, s)
      | Option.none =>
        assignFresh md5 seedFn randFn g now s experiment_name user_id
          context experiment

/-- Embedding of `ABTestingService.record_metric` (lines 153–170): `lpush` of the
value onto the per-(experiment, variant, metric) list. -/
def recordMetric (s : RedisState)
    (experiment_name variant_name metric_name : String) (value : ℚ) :
    RedisState :=
  { s with
    metrics := fun e v m =>
      if e = experiment_name ∧ v = variant_name ∧ m = metric_name then
        value :: s.metrics e v m
      else s.metrics e v m }

/-- Python `statistics.mean`. -/
def meanQ (values : List ℚ) : ℚ := values.sum / values.length

/-- Sample variance with denominator `n - 1` (the square of
`statistics.stdev`); the code substitutes 0 when `n <= 1`. -/
def sampleVariance (values : List ℚ) : ℚ :=
  if values.length ≤ 1 then 0
  else ((values.map (fun x => (x - meanQ values) ^ 2)).sum) /
    ((values.length : ℚ) - 1)

/-- Square of the code's confidence half-width
`1.96 * (stdev / len(values) ** 0.5)` (lines 210–213); the square avoids
an irrational `sqrt` while determining the half-width uniquely, both
quantities being non-negative. -/
def ciHalfWidthSq (values : List ℚ) : ℚ :=
  (196 / 100 : ℚ) ^ 2 * sampleVariance values / values.length

/-- Users of the `experiment_assignments:{exp}` hash whose stored
assignment names this variant (lines 184–191). -/
def variantUsers (s : RedisState) (experiment_name variant_name : String) :
    List String :=
  ((s.records experiment_name).filter (fun p => p.2 == variant_name)).map
    (fun p => p.1)

/-- The observation multiset `get_experiment_results` aggregates for one
(variant, metric) (lines 197–206): one `lrange` of the
`experiment_metrics:{exp}:{variant}:{metric}` list **per user in
`variant_users`** — the key does not mention `user_id`, so the same list
is appended once per assigned user. -/
def gatheredMetricValues (s : RedisState)
    (experiment_name variant_name metric_name : String)
    (variant_users : List String) : List ℚ :=
  (variant_users.map
    (fun _user_id => s.metrics experiment_name variant_name metric_name)).flatten

/-- One entry of the per-variant metrics dict (lines 208–218): skipped
when the gathered list is empty. -/
structure MetricStats where
  value : ℚ
  confidence_interval_sq : ℚ
deriving DecidableEq, Repr

/-- Lines 208–218: statistics over the gathered values, omitted when the
gathered list is empty. -/
def metricEntry (metric_values : List ℚ) : Option MetricStats :=
  if metric_values.isEmpty then Option.none
  else some ⟨meanQ metric_values, ciHalfWidthSq metric_values⟩

/-- The `ExperimentResult` model of `app/models/ab_testing.py` (derived fields the
code fills; the metrics dict is an association list in declaration
order). -/
structure ExperimentResult where
  experiment_id : String
  variant_name : String
  total_users : Nat
  metrics : List (String × MetricStats)
  start_time : Int
  end_time : Int
deriving DecidableEq, Repr

/-- Embedding of `ABTestingService.get_experiment_results` (lines 172–230). -/
def getExperimentResults (now : Int) (s : RedisState)
    (experiment_name : String) : List ExperimentResult :=
  match s.experiments experiment_name with
  | Option.none => []
  | some experiment =>
    experiment.variants.map (fun variant =>
      let variant_users := variantUsers s experiment_name variant.name
      { experiment_id := experiment_name
        variant_name := variant.name
        total_users := variant_users.length
        metrics := experiment.metrics.filterMap (fun metric_name =>
          (metricEntry (gatheredMetricValues s experiment_name variant.name
            metric_name variant_users)).map (fun st => (metric_name, st)))
        start_time := experiment.start_time.getD experiment.created_at
        end_time := experiment.end_time.getD now })

/-- Whether a condition value is a 2-element Python list — the shape the
`between` / `not_between` branches demand (lines 74 and 82). -/
def isTwoList : PyVal → Bool
  | .list [_, _] => true
  | _ => false

/-- Concrete stand-in for `int(md5(x).hexdigest(), 16)` used in
witnesses. -/
def mdW : String → Nat := fun s => s.length

/-- Concrete stand-in for the seeding function used in witnesses. -/
def seedW : Nat → Nat := fun n => n

/-- Concrete stand-in for the seeded uniform draw used in witnesses. -/
def randW : Nat → ℚ := fun _ => 1 / 2

/-- Sample experiment: two equal-weight variants, running, no targeting. -/
def expAB : Experiment :=
  ⟨"checkout-button", .running,
    [⟨"control", .control, 1⟩, ⟨"green", .treatment, 1⟩],
    [], ["clicked"], Option.none, Option.none, Option.none, 0⟩

/-- Sample experiment with no variants. -/
def expEmpty : Experiment :=
  ⟨"empty", .running, [], [], [], Option.none, Option.none, Option.none, 0⟩

/-- Sample experiment whose variants all have weight zero. -/
def expZero : Experiment :=
  ⟨"zero", .running, [⟨"a", .control, 0⟩, ⟨"b", .treatment, 0⟩],
    [], [], Option.none, Option.none, Option.none, 0⟩

/-- Sample running experiment guarded by two targeting rules. -/
def exp6 : Experiment :=
  ⟨"exp6", .running, [⟨"control", .control, 1⟩, ⟨"green", .treatment, 1⟩],
    ["r1", "r2"], ["m"], Option.none, Option.none, Option.none, 0⟩

/-- Rule whose condition does not match the sample context. -/
def ruleNonMatch : TargetingRule :=
  ⟨"r1", [⟨"plan", .equals, .str "enterprise"⟩], Option.none, Option.none,
    Option.none, true⟩

/-- Rule whose condition matches the sample context. -/
def ruleMatch : TargetingRule :=
  ⟨"r2", [⟨"plan", .equals, .str "beta"⟩], Option.none, Option.none,
    Option.none, true⟩

/-- Store holding `exp6` and its two rules, with no assignments yet. -/
def state6 : RedisState where
  experiments := fun n => if n = "exp6" then some exp6 else Option.none
  rules := fun n =>
    if n = "r1" then some ruleNonMatch
    else if n = "r2" then some ruleMatch
    else Option.none
  assignments := fun _ _ => Option.none
  records := fun _ => []
  metrics := fun _ _ _ => []

/-- Sample running experiment with a targeting rule, used to exhibit
stickiness. -/
def exp1 : Experiment :=
  ⟨"exp1", .running, [⟨"control", .control, 1⟩], ["r1"], [], Option.none,
    Option.none, Option.none, 0⟩

/-- Store where `user-42` already holds the assignment `green` for
`exp1`. -/
def state1 : RedisState where
  experiments := fun n => if n = "exp1" then some exp1 else Option.none
  rules := fun _ => Option.none
  assignments := fun e u =>
    if e = "exp1" ∧ u = "user-42" then some "green" else Option.none
  records := fun e => if e = "exp1" then [("user-42", "green")] else []
  metrics := fun _ _ _ => []

/-- Sample paused experiment. -/
def expPaused : Experiment :=
  ⟨"expP", .paused, [⟨"control", .control, 1⟩], [], [], Option.none,
    Option.none, Option.none, 0⟩

/-- Store holding only the paused experiment. -/
def state10 : RedisState where
  experiments := fun n => if n = "expP" then some expPaused else Option.none
  rules := fun _ => Option.none
  assignments := fun _ _ => Option.none
  records := fun _ => []
  metrics := fun _ _ _ => []

/-- One-variant experiment declaring metric `m`, for the results
aggregator. -/
def exp5 : Experiment :=
  ⟨"exp", .running, [⟨"control", .control, 1⟩], [], ["m"], Option.none,
    Option.none, Option.none, 0⟩

/-- Store for `exp5` with two users assigned to `control` and the two
observations 1 and 3 recorded under (exp, control, m). -/
def state5 : RedisState where
  experiments := fun n => if n = "exp" then some exp5 else Option.none
  rules := fun _ => Option.none
  assignments := fun e u =>
    if e = "exp" ∧ (u = "u1" ∨ u = "u2") then some "control" else Option.none
  records := fun e =>
    if e = "exp" then [("u1", "control"), ("u2", "control")] else []
  metrics := fun e v m =>
    if e = "exp" ∧ v = "control" ∧ m = "m" then [1, 3] else []

/-- Same store but with no assignment records at all (observations still
present). -/
def state5b : RedisState where
  experiments := fun n => if n = "exp" then some exp5 else Option.none
  rules := fun _ => Option.none
  assignments := fun _ _ => Option.none
  records := fun _ => []
  metrics := fun e v m =>
    if e = "exp" ∧ v = "control" ∧ m = "m" then [1, 3] else []

/-- Two representations, in different insertion order, of the same
two-key context mapping. -/
def ctxA : Context := [("a", PyVal.int 1), ("b", PyVal.int 2)]

/-- Context `ctxA` with its two items swapped. -/
def ctxB : Context := [("b", PyVal.int 2), ("a", PyVal.int 1)]

theorem charListLt_asymm {a b : List Char} (h : charListLt a b = true) :
    charListLt b a = false := by
  induction a generalizing b with
  | nil =>
    cases b with
    | nil => simp [charListLt] at h
    | cons d ds => simp [charListLt]
  | cons c cs ih =>
    cases b with
    | nil => simp [charListLt] at h
    | cons d ds =>
      simp only [charListLt] at h ⊢
      by_cases h1 : c.toNat < d.toNat
      · simp [h1, Nat.lt_asymm h1]
      · by_cases h2 : d.toNat < c.toNat
        · simp [h1, h2] at h
        · simp only [h1, h2, if_false] at h
          simp [h1, h2, ih h]

theorem charListLt_trans {a b c : List Char} (h1 : charListLt a b = true)
    (h2 : charListLt b c = true) : charListLt a c = true := by
  induction a generalizing b c with
  | nil =>
    cases c with
    | nil =>
      cases b with
      | nil => simp [charListLt] at h1
      | cons y ys => simp [charListLt] at h2
    | cons z zs => simp [charListLt]
  | cons x xs ih =>
    cases b with
    | nil => simp [charListLt] at h1
    | cons y ys =>
      cases c with
      | nil => simp [charListLt] at h2
      | cons z zs =>
        simp only [charListLt] at h1 h2 ⊢
        by_cases hxy : x.toNat < y.toNat
        · by_cases hyz : y.toNat < z.toNat
          · simp [Nat.lt_trans hxy hyz]
          · by_cases hzy : z.toNat < y.toNat
            · simp [hyz, hzy] at h2
            · have heq : y.toNat = z.toNat :=
                Nat.le_antisymm (Nat.not_lt.mp hzy) (Nat.not_lt.mp hyz)
              simp [heq ▸ hxy]
        · by_cases hyx : y.toNat < x.toNat
          · simp [hxy, hyx] at h1
          · have hxyeq : x.toNat = y.toNat :=
              Nat.le_antisymm (Nat.not_lt.mp hyx) (Nat.not_lt.mp hxy)
            simp only [hxy, hyx, if_false] at h1
            by_cases hyz : y.toNat < z.toNat
            · simp [hxyeq ▸ hyz]
            · by_cases hzy : z.toNat < y.toNat
              · simp [hyz, hzy] at h2
              · simp only [hyz, hzy] at h2
                have hyzeq : y.toNat = z.toNat :=
                  Nat.le_antisymm (Nat.not_lt.mp hzy) (Nat.not_lt.mp hyz)
                have hxz : ¬ x.toNat < z.toNat := by omega
                have hzx : ¬ z.toNat < x.toNat := by omega
                simp [hxz, hzx]
                simp at h1 h2
                exact ih h1 h2

theorem charListLt_eq_of_not_lt {a b : List Char}
    (h1 : charListLt a b = false) (h2 : charListLt b a = false) : a = b := by
  induction a generalizing b with
  | nil =>
    cases b with
    | nil => rfl
    | cons d ds => simp [charListLt] at h1
  | cons c cs ih =>
    cases b with
    | nil => simp [charListLt] at h2
    | cons d ds =>
      simp only [charListLt] at h1 h2
      by_cases hcd : c.toNat < d.toNat
      · simp [hcd] at h1
      · by_cases hdc : d.toNat < c.toNat
        · simp [hcd, hdc] at h2
        · rw [if_neg hcd, if_neg hdc] at h1
          rw [if_neg hdc, if_neg hcd] at h2
          have hval : c.toNat = d.toNat :=
            Nat.le_antisymm (Nat.not_lt.mp hdc) (Nat.not_lt.mp hcd)
          have hc : c = d := by
            have := congrArg Char.ofNat hval
            simpa [Char.ofNat_toNat] using this
          rw [hc, ih h1 h2]

theorem string_toList_inj {s t : String} (h : s.toList = t.toList) : s = t := by
  cases s; cases t; exact congrArg String.mk h

theorem keyLe_trans {a b c : String} (h1 : keyLe a b = true)
    (h2 : keyLe b c = true) : keyLe a c = true := by
  simp only [keyLe, Bool.not_eq_true'] at h1 h2 ⊢
  by_contra hca
  rw [Bool.not_eq_false] at hca
  cases h : charListLt b.toList c.toList with
  | true => exact absurd (charListLt_trans h hca) (by rw [h1]; simp)
  | false =>
    have hbc : b.toList = c.toList := charListLt_eq_of_not_lt h h2
    rw [hbc] at h1
    exact absurd hca (by rw [h1]; simp)

theorem keyLe_total (a b : String) : (keyLe a b || keyLe b a) = true := by
  simp only [keyLe]
  cases h : charListLt b.toList a.toList with
  | false => simp
  | true => rw [charListLt_asymm h]; simp

theorem mergeSortKeys_eq_of_perm {α : Type} {l₁ l₂ : List (String × α)}
    (hp : l₁.Perm l₂) (hnd : (l₁.map Prod.fst).Nodup) :
    l₁.mergeSort (fun p q => keyLe p.1 q.1) =
    l₂.mergeSort (fun p q => keyLe p.1 q.1) := by
  have htrans : ∀ a b c : String × α,
      keyLe a.1 b.1 = true → keyLe b.1 c.1 = true → keyLe a.1 c.1 = true :=
    fun _ _ _ => keyLe_trans
  have htotal : ∀ a b : String × α, (keyLe a.1 b.1 || keyLe b.1 a.1) = true :=
    fun a b => keyLe_total a.1 b.1
  have hs₁ := List.sorted_mergeSort htrans htotal l₁
  have hs₂ := List.sorted_mergeSort htrans htotal l₂
  have hp₁ := List.mergeSort_perm l₁ (fun p q => keyLe p.1 q.1)
  have hp₂ := List.mergeSort_perm l₂ (fun p q => keyLe p.1 q.1)
  have hnds₁ : ((l₁.mergeSort (fun p q => keyLe p.1 q.1)).map Prod.fst).Nodup :=
    (hp₁.map Prod.fst).nodup_iff.mpr hnd
  have hnds₂ : ((l₂.mergeSort (fun p q => keyLe p.1 q.1)).map Prod.fst).Nodup :=
    (hp₂.map Prod.fst).nodup_iff.mpr ((hp.map Prod.fst).nodup_iff.mp hnd)
  have key : ∀ (l : List (String × α)),
      List.Pairwise (fun p q => keyLe p.1 q.1 = true) l →
      ((l.map Prod.fst)).Nodup →
      List.Pairwise
        (fun p q : String × α => charListLt p.1.toList q.1.toList = true) l := by
    intro l hplw hndl
    have hne : List.Pairwise (fun p q : String × α => p.1 ≠ q.1) l :=
      List.pairwise_map.mp hndl
    refine (hplw.and hne).imp ?_
    rintro p q ⟨hpq, hneq⟩
    simp only [keyLe, Bool.not_eq_true'] at hpq
    cases hlt : charListLt p.1.toList q.1.toList with
    | true => rfl
    | false =>
      exact absurd (string_toList_inj (charListLt_eq_of_not_lt hlt hpq)) hneq
  haveI : IsAntisymm (String × α)
      (fun p q => charListLt p.1.toList q.1.toList = true) :=
    ⟨fun p q h1 h2 => absurd h2 (by rw [charListLt_asymm h1]; simp)⟩
  exact List.eq_of_perm_of_sorted (hp₁.trans (hp.trans hp₂.symm))
    (key _ hs₁ hnds₁) (key _ hs₂ hnds₂)

/-- C3: for every condition (any of the ten operators, any condition
value) and every context, if the condition's attribute is not a key of
the context then `_evaluate_condition` returns `False` (fail-closed),
raising nothing — the absence check at lines 27–28 precedes every
operator branch. -/
theorem c3_fail_closed_absent_attribute (condition : TargetingCondition)
    (context : Context)
    (h : lookupCtx context condition.attr = Option.none) :
    evaluateCondition condition context = .ok false := by
  unfold evaluateCondition
  rw [h]

/-- C3 witness: a `greater_than` condition on `age` against a context
holding only `plan`. -/
theorem c3_fail_closed_absent_attribute_witness :
    evaluateCondition ⟨"age", .greater_than, PyVal.int 30⟩
      [("plan", PyVal.str "beta")] = .ok false :=
  c3_fail_closed_absent_attribute _ _ (by rfl)

/-- C4 (refuting the claim on the code): at a `greater_than` condition
whose condition value is the string `"x"` and a context where the
attribute holds the number 5, the evaluator reaches `5 > "x"` — the
`isinstance(value, (int, float))` guard checks only the context value —
and Python raises `TypeError` instead of returning a boolean. -/
theorem c4_evaluator_raises_type_error :
    evaluateCondition ⟨"age", .greater_than, PyVal.str "x"⟩
      [("age", PyVal.int 5)] = .error .typeError := by rfl

/-- C8 counterexample: a `not_between` condition whose condition value
is the one-element list `[1]`, with the attribute present and numeric in
the context, evaluates to `False`, not the `True` the claim states —
line 82 returns `False` for a malformed condition value on the
`not_between` branch just as line 74 does for `between`. -/
theorem c8_not_between_malformed_value_counterexample :
    evaluateCondition ⟨"a", .not_between, PyVal.list [PyVal.int 1]⟩
      [("a", PyVal.int 5)] = .ok false ∧
    evaluateCondition ⟨"a", .not_between, PyVal.list [PyVal.int 1]⟩
      [("a", PyVal.int 5)] ≠ .ok true := by
  constructor
  · rfl
  · intro hcontr
    simp [evaluateCondition, lookupCtx, isTwoList] at hcontr

/-- C8 (amended): when the condition's attribute is present in the
context and the condition value is not a 2-element list, `between` and
`not_between` both return `False` (fail-closed); the fail-open `True` of
`not_between` arises only for a non-numeric context value. -/
theorem c8_between_malformed_value_fail_closed
    (a : String) (t : PyVal) (ctx : Context) (v : PyVal)
    (hv : lookupCtx ctx a = some v) (ht : isTwoList t = false) :
    evaluateCondition ⟨a, .between, t⟩ ctx = .ok false ∧
    evaluateCondition ⟨a, .not_between, t⟩ ctx = .ok false := by
  constructor <;>
  · unfold evaluateCondition
    rw [hv]
    rcases t with s | n | q | b | l | _
    case list =>
      rcases l with _ | ⟨x, _ | ⟨y, _ | ⟨z, rest⟩⟩⟩
      · rfl
      · rfl
      · simp [isTwoList] at ht
      · rfl
    all_goals rfl

/-- C8 amended-claim witness: `between` and `not_between` with condition
value `[1]` and the attribute present both return `False`. -/
theorem c8_between_malformed_value_fail_closed_witness :
    evaluateCondition ⟨"a", .between, PyVal.list [PyVal.int 1]⟩
      [("a", PyVal.int 5)] = .ok false ∧
    evaluateCondition ⟨"a", .not_between, PyVal.list [PyVal.int 1]⟩
      [("a", PyVal.int 5)] = .ok false :=
  c8_between_malformed_value_fail_closed "a" (PyVal.list [PyVal.int 1])
    [("a", PyVal.int 5)] (PyVal.int 5) (by rfl) (by rfl)

/-- C2: for a fixed experiment with at least one variant and positive
total weight and a fixed user, the pure bucketing step
`_calculate_variant_assignment` returns the same `.ok` variant on two
independent invocations — whatever the global RNG states `g`, `g'` at
entry, since `random.seed(md5(name:user))` overwrites that state before
the draw; the function reads no persisted store at all. -/
theorem c2_bucketing_deterministic (md5 : String → Nat) (seedFn : Nat → Nat)
    (randFn : Nat → ℚ) (experiment : Experiment) (user_id : String)
    (g g' : Nat)
    (h1 : experiment.variants ≠ []) (h2 : 0 < totalWeight experiment) :
    calculateVariantAssignment md5 seedFn randFn g experiment user_id =
      calculateVariantAssignment md5 seedFn randFn g' experiment user_id ∧
    ∃ v, calculateVariantAssignment md5 seedFn randFn g experiment user_id =
      .ok v := by
  have hE : experiment.variants.isEmpty = false := by
    cases hv : experiment.variants with
    | nil => exact absurd hv h1
    | cons a l => rfl
  have hW : ¬ totalWeight experiment = 0 := h2.ne'
  refine ⟨by simp [calculateVariantAssignment, hE, hW],
    bisectPick (randFn (seedFn (md5 (experiment.name ++ ":" ++ user_id)))) 0
      (experiment.variants.map
        (fun v => (v.name, v.weight / totalWeight experiment))), ?_⟩
  simp [calculateVariantAssignment, hE, hW]

/-- C2 witness: the scenario experiment (two variants of weight 1)
bucketed for `user-42` from two different RNG entry states. -/
theorem c2_bucketing_deterministic_witness :
    (calculateVariantAssignment mdW seedW randW 0 expAB "user-42" =
      calculateVariantAssignment mdW seedW randW 7 expAB "user-42") ∧
    ∃ v, calculateVariantAssignment mdW seedW randW 0 expAB "user-42" =
      .ok v :=
  c2_bucketing_deterministic mdW seedW randW expAB "user-42" 0 7
    (by simp [expAB]) (by norm_num [totalWeight, expAB])

/-- C9: a bucketing request against an experiment with no variants, or
whose variants all weigh zero, ends in a raised error (`ValueError` from
the guard at line 32, `ZeroDivisionError` from the weight normalization
at lines 41–43) — never an `.ok` variant name. -/
theorem c9_configuration_error_refusal (md5 : String → Nat)
    (seedFn : Nat → Nat) (randFn : Nat → ℚ) (g : Nat)
    (experiment : Experiment) (user_id : String)
    (h : experiment.variants = [] ∨ ∀ v ∈ experiment.variants, v.weight = 0) :
    calculateVariantAssignment md5 seedFn randFn g experiment user_id =
      .error (if experiment.variants.isEmpty then PyErr.valueError
              else PyErr.zeroDivisionError) := by
  rcases h with h | h
  · simp [calculateVariantAssignment, h]
  · by_cases hE : experiment.variants.isEmpty
    · simp [calculateVariantAssignment, hE]
    · have hW : totalWeight experiment = 0 := by
        apply List.sum_eq_zero
        intro x hx
        rcases List.mem_map.mp hx with ⟨v, hv, rfl⟩
        exact h v hv
      simp [calculateVariantAssignment, hE, hW]

/-- C9 witness: the no-variant experiment raises `ValueError`; the
all-zero-weights experiment raises `ZeroDivisionError`. -/
theorem c9_configuration_error_refusal_witness :
    calculateVariantAssignment mdW seedW randW 0 expEmpty "u" =
      .error PyErr.valueError ∧
    calculateVariantAssignment mdW seedW randW 0 expZero "u" =
      .error PyErr.zeroDivisionError := by
  constructor
  · have := c9_configuration_error_refusal mdW seedW randW 0 expEmpty "u"
      (Or.inl (by rfl))
    simpa [expEmpty] using this
  · have := c9_configuration_error_refusal mdW seedW randW 0 expZero "u"
      (Or.inr (by intro v hv; simp [expZero] at hv; rcases hv with rfl | rfl <;> rfl))
    simpa [expZero] using this

/-- C10: if the experiment is absent from the store, or present with any
status other than `running`, `assign_variant` returns `None` without
raising and leaves the store untouched (lines 113–115 run before any
write). -/
theorem c10_fail_soft_non_running (md5 : String → Nat) (seedFn : Nat → Nat)
    (randFn : Nat → ℚ) (g : Nat) (now : Int) (s : RedisState)
    (experiment_name user_id : String) (context : Context)
    (h : s.experiments experiment_name = Option.none ∨
      ∃ e, s.experiments experiment_name = some e ∧
        e.status ≠ ExperimentStatus.running) :
    assignVariant md5 seedFn randFn g now s experiment_name user_id context =
      .ok (Option.none, s) := by
  rcases h with h | ⟨e, he, hst⟩
  · simp [assignVariant, h]
  · simp [assignVariant, he, hst]

/-- C10 witness: an absent experiment name and a paused experiment, both
against the same store. -/
theorem c10_fail_soft_non_running_witness :
    assignVariant mdW seedW randW 0 0 state10 "missing" "u" [] =
      .ok (Option.none, state10) ∧
    assignVariant mdW seedW randW 0 0 state10 "expP" "u" [] =
      .ok (Option.none, state10) :=
  ⟨c10_fail_soft_non_running mdW seedW randW 0 0 state10 "missing" "u" []
      (Or.inl (by rfl)),
    c10_fail_soft_non_running mdW seedW randW 0 0 state10 "expP" "u" []
      (Or.inr ⟨expPaused, by rfl, by decide⟩)⟩

/-- C1: once the store holds an assignment `v` for (experiment, user)
and the experiment still exists with status `running`, `assign_variant`
returns the stored `v` for any context whatsoever and for any current
content of the experiment's variants, weights and targeting rules — the
stickiness check at lines 120–122 precedes the targeting and bucketing
logic — and the store is returned unchanged (no new write).  `v ≠ ""`
reflects the Python truthiness test `if existing_assignment:`; every
stored name is a variant name, so this covers every real store. -/
theorem c1_sticky_assignment (md5 : String → Nat) (seedFn : Nat → Nat)
    (randFn : Nat → ℚ) (g : Nat) (now : Int) (s : RedisState)
    (experiment_name user_id : String) (context : Context)
    (e : Experiment) (v : String)
    (he : s.experiments experiment_name = some e)
    (hrun : e.status = ExperimentStatus.running)
    (ha : s.assignments experiment_name user_id = some v)
    (hnz : v ≠ "") :
    assignVariant md5 seedFn randFn g now s experiment_name user_id context =
      .ok (some v, s) := by
  simp [assignVariant, he, hrun, ha, hnz]

/-- C1 witness: `user-42` already holds `green` for `exp1` (a running
experiment that declares a targeting rule unresolvable in the store, and
a variant list not containing `green`); the call returns `green` and the
state unchanged. -/
theorem c1_sticky_assignment_witness :
    assignVariant mdW seedW randW 0 0 state1 "exp1" "user-42"
      [("plan", PyVal.str "free")] = .ok (some "green", state1) :=
  c1_sticky_assignment mdW seedW randW 0 0 state1 "exp1" "user-42"
    [("plan", PyVal.str "free")] exp1 "green" (by rfl) (by rfl) (by rfl)
    (by decide)

theorem exceptBind_ok {A B : Type} (a : A) (f : A → Except PyErr B) :
    (Except.ok a >>= f : Except PyErr B) = f a := rfl

theorem exceptPure_eq_ok {A : Type} (a : A) :
    (pure a : Except PyErr A) = Except.ok a := rfl

/-- C6: for a running experiment with a non-empty targeting-rules list
and no prior assignment for the user, when every resolved rule evaluates
to `False` the call returns `None` with the store untouched (so a later
call with a different context can still assign); when at least one
resolved rule evaluates to `True` the call's outcome is exactly the
bucketing step's — its variant stored and returned on success. -/
theorem c6_or_across_rules (md5 : String → Nat) (seedFn : Nat → Nat)
    (randFn : Nat → ℚ) (g : Nat) (now : Int) (s : RedisState)
    (experiment_name user_id : String) (context : Context)
    (e : Experiment) (evals : List TargetingEvaluation)
    (he : s.experiments experiment_name = some e)
    (hrun : e.status = ExperimentStatus.running)
    (hnoassign : s.assignments experiment_name user_id = Option.none)
    (hrules : e.targeting_rules ≠ [])
    (heval : evaluateRules md5 now (e.targeting_rules.filterMap s.rules)
      context = .ok evals) :
    (evals.any (fun ev => ev.result) = false →
      assignVariant md5 seedFn randFn g now s experiment_name user_id context
        = .ok (Option.none, s)) ∧
    (evals.any (fun ev => ev.result) = true →
      assignVariant md5 seedFn randFn g now s experiment_name user_id context
        = (calculateVariantAssignment md5 seedFn randFn g e user_id).map
            (fun variant_name => (some variant_name,
              storeAssignment s experiment_name user_id variant_name))) := by
  have hE : e.targeting_rules.isEmpty = false := by
    cases hv : e.targeting_rules with
    | nil => exact absurd hv hrules
    | cons a l => rfl
  constructor <;> intro hany
  · have hno : ¬ ∃ x ∈ evals, x.result = true := by
      rw [← List.any_eq_true]
      simp [hany]
    simp [assignVariant, assignFresh, he, hrun, hnoassign, hE, heval, hno,
      exceptBind_ok, exceptPure_eq_ok]
  · cases hr : calculateVariantAssignment md5 seedFn randFn g e user_id with
    | error err =>
      simp [assignVariant, assignFresh, he, hrun, hnoassign, hE, heval,
        List.any_eq_true.mp hany, hr, Except.map, exceptBind_ok]
    | ok v =>
      simp [assignVariant, assignFresh, he, hrun, hnoassign, hE, heval,
        List.any_eq_true.mp hany, hr, Except.map, exceptBind_ok]

/-- C6 witness: `exp6` declares rules r1, r2; with context
`plan = free` neither matches and the call yields `None` leaving the
store unchanged; with `plan = beta` only r2 matches and the call's
outcome is the bucketing step's. -/
theorem c6_or_across_rules_witness :
    (assignVariant mdW seedW randW 0 0 state6 "exp6" "u1"
      [("plan", PyVal.str "free")] = .ok (Option.none, state6)) ∧
    (assignVariant mdW seedW randW 0 0 state6 "exp6" "u1"
      [("plan", PyVal.str "beta")] =
      (calculateVariantAssignment mdW seedW randW 0 exp6 "u1").map
        (fun variant_name => (some variant_name,
          storeAssignment state6 "exp6" "u1" variant_name))) :=
  ⟨(c6_or_across_rules mdW seedW randW 0 0 state6 "exp6" "u1"
      [("plan", PyVal.str "free")] exp6
      [⟨"r1", false, [], ["plan"], 0⟩, ⟨"r2", false, [], ["plan"], 0⟩]
      (by rfl) (by rfl) (by rfl) (by simp [exp6]) (by rfl)).1 (by rfl),
    (c6_or_across_rules mdW seedW randW 0 0 state6 "exp6" "u1"
      [("plan", PyVal.str "beta")] exp6
      [⟨"r1", false, [], ["plan"], 0⟩, ⟨"r2", true, ["plan"], [], 0⟩]
      (by rfl) (by rfl) (by rfl) (by simp [exp6]) (by rfl)).2 (by rfl)⟩

/-- C5 (refuting the claim on the code): in `get_experiment_results` the
inner loop `for user_id in variant_users` re-reads the same
`experiment_metrics:{exp}:{variant}:{metric}` list — the key never
mentions `user_id` — so each recorded observation is aggregated once per
assigned user.  With 2 users assigned to `control` and the 2 recorded
observations [1, 3]: the gathered multiset is [1, 3, 1, 3] (n = 4, not
n = 2), the squared confidence half-width differs from the claimed
`1.96 * stdev / sqrt(2)` over the recorded observations, and with 0
assigned users the declared metric is omitted even though 2 observations
are recorded. -/
theorem c5_results_aggregate_per_user_duplication :
    variantUsers state5 "exp" "control" = ["u1", "u2"] ∧
    state5.metrics "exp" "control" "m" = [1, 3] ∧
    gatheredMetricValues state5 "exp" "control" "m"
      (variantUsers state5 "exp" "control") = [1, 3, 1, 3] ∧
    ciHalfWidthSq [1, 3, 1, 3] ≠ ciHalfWidthSq [1, 3] ∧
    getExperimentResults 0 state5 "exp" =
      [⟨"exp", "control", 2,
        [("m", ⟨meanQ [1, 3, 1, 3], ciHalfWidthSq [1, 3, 1, 3]⟩)], 0, 0⟩] ∧
    meanQ [1, 3, 1, 3] = 2 ∧
    state5b.metrics "exp" "control" "m" = [1, 3] ∧
    getExperimentResults 0 state5b "exp" =
      [⟨"exp", "control", 0, [], 0, 0⟩] := by
  refine ⟨rfl, rfl, rfl, ?_, rfl, ?_, rfl, rfl⟩
  · norm_num [ciHalfWidthSq, sampleVariance, meanQ]
  · norm_num [meanQ]

/-- C7: the percentage gate of `_evaluate_rule` is exactly the stated
function of the context alone — md5 of the key-sorted JSON
serialization, reduced mod 100, compared with the threshold — so its
outcome is unchanged when the same context mapping is presented in any
insertion order (and across repeated evaluations); no user identity
enters the computation, and for a rule with `percentage` set the rule
evaluator returns this very outcome. -/
theorem c7_percentage_gate_deterministic (md5 : String → Nat) (p : ℚ)
    (ctx ctx' : Context) (hperm : List.Perm ctx ctx')
    (hnd : (List.map Prod.fst ctx).Nodup) :
    percentGate md5 p ctx = percentGate md5 p ctx' ∧
    percentGate md5 p ctx =
      decide (((md5 (jsonDumpsSortedCtx ctx) % 100 : ℕ) : ℚ) < p) ∧
    ∀ (now : Int) (rule : TargetingRule),
      rule.percentage = some p → rule.conditions = [] →
      rule.start_time = Option.none → rule.end_time = Option.none →
      evaluateRule md5 now rule ctx =
        .ok ⟨rule.name, percentGate md5 p ctx, [], [], now⟩ := by
  have hsort : sortKeys ctx = sortKeys ctx' :=
    mergeSortKeys_eq_of_perm hperm hnd
  refine ⟨?_, rfl, ?_⟩
  · unfold percentGate jsonDumpsSortedCtx
    rw [hsort]
  · intro now rule hp hc hst het
    unfold evaluateRule
    rw [hc, hst, het, hp]
    cases hg : percentGate md5 p ctx with
    | false =>
      simp [hg, exceptBind_ok, exceptPure_eq_ok, List.mapM, List.mapM.loop]
    | true =>
      simp [hg, exceptBind_ok, exceptPure_eq_ok, List.mapM, List.mapM.loop]

/-- C7 witness: the two insertion orders of the mapping
`(a ↦ 1, b ↦ 2)` at threshold 50. -/
theorem c7_percentage_gate_deterministic_witness :
    percentGate mdW 50 ctxA = percentGate mdW 50 ctxB ∧
    percentGate mdW 50 ctxA =
      decide (((mdW (jsonDumpsSortedCtx ctxA) % 100 : ℕ) : ℚ) < 50) ∧
    ∀ (now : Int) (rule : TargetingRule),
      rule.percentage = some 50 → rule.conditions = [] →
      rule.start_time = Option.none → rule.end_time = Option.none →
      evaluateRule mdW now rule ctxA =
        .ok ⟨rule.name, percentGate mdW 50 ctxA, [], [], now⟩ :=
  c7_percentage_gate_deterministic mdW 50 ctxA ctxB
    (List.Perm.swap ("b", PyVal.int 2) ("a", PyVal.int 1) [])
    (by decide)
